import Mathlib

/-!
Verification of the hoover/setup configuration engine
(`hoover_script.py`, `parser.py`) against its design specification.

The Python code is shallowly embedded: Python values that occur as
parameter defaults / resolved values (strings, `None`, booleans) become
`PyVal`; the mutable resolution cache `self.value` becomes an explicit
field of `Param` threaded through `Param.get`; `os.environ` becomes a
function `String → Option String`; the `input()` call in `Param._question`
becomes an oracle argument; exceptions become `Except`.
-/

deriving instance DecidableEq for Except

namespace HooverSetup

/-- Python values that occur as parameter defaults and resolved values:
`None`, strings, and booleans (`bootstrap_no_db` defaults to `False`). -/
inductive PyVal where
  | none : PyVal
  | str (s : String) : PyVal
  | bool (b : Bool) : PyVal
  deriving DecidableEq, Repr

/-- Embedding of class `Param` (hoover_script.py lines 31-64).  The field
`value` is the resolution cache; it is initialised to `None`
(`self.value = None` in `__init__`), and `PyVal.none` plays the role of
Python `None` throughout, so an "absent" resolved value is
indistinguishable from "not yet resolved" - exactly as in the source. -/
structure Param where
  name : String
  default : PyVal
  environ : String
  question_label : Option String := Option.none
  required : Bool := true
  value : PyVal := PyVal.none
  deriving DecidableEq, Repr

/-- The process environment, `os.environ` / `os.getenv`. -/
abbrev Env := String → Option String

/-- Python truthiness of `os.getenv(key)`: truthy iff the variable is set
to a non-empty string. -/
def envTruthy (env : Env) (key : String) : Bool :=
  match env key with
  | Option.some s => s ≠ ""
  | Option.none => false

/-- Module-level flag `interactive_mode = False` (hoover_script.py
line 27).  It is assigned exactly once and never set to `True` anywhere
in the module. -/
def interactive_mode : Bool := false

/-- Error raised by `Param.get` when a required parameter stays
unresolved (hoover_script.py lines 57-59).  The `RuntimeError` message
names the parameter and its environment variable; the embedding keeps
both as fields, and `MissingParameter.message` rebuilds the exact text. -/
structure MissingParameter where
  param : String
  environ : String
  deriving DecidableEq, Repr

/-- The `RuntimeError` message text of lines 58-59. -/
def MissingParameter.message (m : MissingParameter) : String :=
  "The " ++ m.param ++ " param was not set! Use the " ++ m.environ ++
    " environment variable to set it."

/-- Embedding of `Param._question` (lines 41-44): `input(...)` is the
oracle `ask` (already `.strip()`-ed); `rv or default` keeps the reply if
non-empty, else falls back to the default. -/
def Param.question (ask : String → PyVal → String) (label : String)
    (default : PyVal) : PyVal :=
  let rv := ask label default
  if rv ≠ "" then PyVal.str rv else default

/-- The uncached part of `Param.get` (lines 50-55): environment value if
set and non-empty, else the interactive prompt when enabled, required and
labelled, else the default. -/
def Param.resolveFresh (env : Env) (im : Bool) (ask : String → PyVal → String)
    (p : Param) : PyVal :=
  match env p.environ with
  | Option.some s =>
      if s ≠ "" then PyVal.str s
      else if im && p.required && p.question_label.isSome then
        Param.question ask (p.question_label.getD "") p.default
      else p.default
  | Option.none =>
      if im && p.required && p.question_label.isSome then
        Param.question ask (p.question_label.getD "") p.default
      else p.default

/-- Embedding of `Param.get` (hoover_script.py lines 46-61).  Returns the
resolved value together with the updated `Param` (the mutated `self`).
The cache test is `if self.value is not None`; the post-check raises only
when the stored value is Python `None` and the parameter is required. -/
def Param.get (env : Env) (im : Bool) (ask : String → PyVal → String)
    (p : Param) : Except MissingParameter (PyVal × Param) :=
  if p.value ≠ PyVal.none then Except.ok (p.value, p)
  else
    let v := Param.resolveFresh env im ask p
    if v = PyVal.none && p.required then
      Except.error ⟨p.name, p.environ⟩
    else
      Except.ok (v, { p with value := v })

/-! The declared parameter registry (hoover_script.py lines 66-208).
Class `Params` holds twenty `Param` class attributes; the module-level
global `param_list` collects them in declaration order.  The four
tool-path parameters take their default from `shutil.which(...)`, which
is environment/filesystem dependent, so those defaults are arguments of
the corresponding definitions. -/

def optToVal : Option String → PyVal
  | Option.some s => PyVal.str s
  | Option.none => PyVal.none

def Params.virtualenv_url : Param :=
  { name := "virtualenv_url"
    default := PyVal.str "https://github.com/pypa/virtualenv/raw/master/virtualenv.py"
    environ := "HOOVER_VIRTUALENV_URL" }

def Params.setuptools_url : Param :=
  { name := "setuptools_url"
    default := PyVal.str "https://pypi.python.org/packages/8a/1f/e2e14f0b98d0b6de6c3fb4e8a3b45d3b8907783937c497cb53539c0d2b19/setuptools-28.6.1-py2.py3-none-any.whl"
    environ := "HOOVER_SETUPTOOLS_URL" }

def Params.pip_url : Param :=
  { name := "pip_url"
    default := PyVal.str "https://pypi.python.org/packages/9c/32/004ce0852e0a127f07f358b715015763273799bd798956fa930814b60f39/pip-8.1.2-py2.py3-none-any.whl"
    environ := "HOOVER_PIP_URL" }

def Params.search_repo : Param :=
  { name := "search_repo"
    default := PyVal.str "https://github.com/hoover/search.git"
    environ := "HOOVER_SEARCH_REPO" }

def Params.bootstrap_no_db : Param :=
  { name := "bootstrap_no_db"
    default := PyVal.bool false
    environ := "HOOVER_BOOTSTRAP_NO_DB"
    required := false }

def Params.snoop_repo : Param :=
  { name := "snoop_repo"
    default := PyVal.str "https://github.com/hoover/snoop.git"
    environ := "HOOVER_SNOOP_REPO" }

def Params.ui_repo : Param :=
  { name := "ui_repo"
    default := PyVal.str "https://github.com/hoover/ui.git"
    environ := "HOOVER_UI_REPO" }

def Params.search_db : Param :=
  { name := "search_db"
    default := PyVal.str "hoover-search"
    environ := "HOOVER_SEARCH_DB"
    question_label := Option.some "PostgreSQL search database" }

def Params.snoop_db : Param :=
  { name := "snoop_db"
    default := PyVal.str "hoover-snoop"
    environ := "HOOVER_SNOOP_DB"
    question_label := Option.some "PostgreSQL snoop database" }

def Params.es_url : Param :=
  { name := "es_url"
    default := PyVal.str "http://localhost:9200"
    environ := "HOOVER_ES_URL"
    question_label := Option.some "Elasticsearch URL" }

def Params.tika_url : Param :=
  { name := "tika_url"
    default := PyVal.none
    environ := "HOOVER_TIKA_URL"
    question_label := Option.some "Tika URL"
    required := false }

def Params.sevenzip_exec (which7z : Option String) : Param :=
  { name := "7z_exec"
    default := optToVal which7z
    environ := "HOOVER_SNOOP_SEVENZIP_EXEC"
    question_label := Option.some "Path to 7z executable"
    required := false }

def Params.msgconvert_exec (whichMsg : Option String) : Param :=
  { name := "msgconvert_exec"
    default := optToVal whichMsg
    environ := "HOOVER_SNOOP_MSGCONVERT_EXEC"
    question_label := Option.some "Path to msgconvert executable"
    required := false }

def Params.readpst_exec (whichPst : Option String) : Param :=
  { name := "readpst_exec"
    default := optToVal whichPst
    environ := "HOOVER_SNOOP_READPST_EXEC"
    question_label := Option.some "Path to readpst executable"
    required := false }

def Params.gpg_exec (whichGpg : Option String) : Param :=
  { name := "gpg_exec"
    default := optToVal whichGpg
    environ := "HOOVER_SNOOP_GPG_EXEC"
    question_label := Option.some "Path to gpg executable"
    required := false }

def Params.allowed_hosts : Param :=
  { name := "allowed_hosts"
    default := PyVal.str "localhost"
    environ := "HOOVER_ALLOWED_HOSTS"
    question_label := Option.some "Space separated list with the allowed hosts" }

def Params.oauth_client_id : Param :=
  { name := "oauth_client_id"
    default := PyVal.none
    environ := "HOOVER_OAUTH_CLIENT_ID"
    question_label := Option.some "Client ID for OAuth2"
    required := false }

def Params.oauth_client_secret : Param :=
  { name := "oauth_client_secret"
    default := PyVal.none
    environ := "HOOVER_OAUTH_CLIENT_SECRET"
    question_label := Option.some "Client secret for OAuth2"
    required := false }

def Params.oauth_liquid_url : Param :=
  { name := "oauth_liquid_url"
    default := PyVal.none
    environ := "HOOVER_OAUTH_LIQUID_URL"
    question_label := Option.some "URL that points to the liquid-core OAuth2 provider"
    required := false }

def Params.config_dir : Param :=
  { name := "config_dir"
    default := PyVal.none
    environ := "HOOVER_CONFIG_DIR"
    question_label := Option.some "The directory in which the config files are saved. Symlinks are made to the actual files."
    required := false }

/-- The class attributes of `Params`, as Python attribute lookup sees
them: attribute name paired with the `Param` object, in declaration
order.  Note there is no attribute named `param_list` on the class - the
list of that name is a module-level global. -/
def Params.attrs (which7z whichMsg whichPst whichGpg : Option String) :
    List (String × Param) :=
  [ ("virtualenv_url", Params.virtualenv_url)
  , ("setuptools_url", Params.setuptools_url)
  , ("pip_url", Params.pip_url)
  , ("search_repo", Params.search_repo)
  , ("bootstrap_no_db", Params.bootstrap_no_db)
  , ("snoop_repo", Params.snoop_repo)
  , ("ui_repo", Params.ui_repo)
  , ("search_db", Params.search_db)
  , ("snoop_db", Params.snoop_db)
  , ("es_url", Params.es_url)
  , ("tika_url", Params.tika_url)
  , ("sevenzip_exec", Params.sevenzip_exec which7z)
  , ("msgconvert_exec", Params.msgconvert_exec whichMsg)
  , ("readpst_exec", Params.readpst_exec whichPst)
  , ("gpg_exec", Params.gpg_exec whichGpg)
  , ("allowed_hosts", Params.allowed_hosts)
  , ("oauth_client_id", Params.oauth_client_id)
  , ("oauth_client_secret", Params.oauth_client_secret)
  , ("oauth_liquid_url", Params.oauth_liquid_url)
  , ("config_dir", Params.config_dir) ]

/-- The module-level global `param_list` (declaration order). -/
def param_list (which7z whichMsg whichPst whichGpg : Option String) :
    List Param :=
  (Params.attrs which7z whichMsg whichPst whichGpg).map Prod.snd

/-- Python attribute lookup on a `Param` instance.  `__init__` stores
exactly the attributes `name`, `default`, `environ`, `question_label`,
`required` and `value`; any other attribute raises `AttributeError`.
`question_label` is returned as the Python value (`None` or a string). -/
def Param.lookupAttr (p : Param) (a : String) : Option PyVal :=
  if a = "name" then Option.some (PyVal.str p.name)
  else if a = "default" then Option.some p.default
  else if a = "environ" then Option.some (PyVal.str p.environ)
  else if a = "question_label" then Option.some (optToVal p.question_label)
  else if a = "required" then Option.some (PyVal.bool p.required)
  else if a = "value" then Option.some p.value
  else Option.none

/-- Embedding of `list_params` (hoover_script.py lines 215-225).  The
loop header is `for param in Params.param_list`; Python resolves
`Params.param_list` by attribute lookup on the class, which holds only
the twenty `Param` attributes, so the lookup raises `AttributeError`
before any iteration happens.  (Had it iterated the global `param_list`,
the loop body would still die on `param.optional`: `Param` instances
have no `optional` attribute - see `Param.lookupAttr`.) -/
def list_params (which7z whichMsg whichPst whichGpg : Option String)
    (_args : List String) : Except String (List String) :=
  match (Params.attrs which7z whichMsg whichPst whichGpg).lookup "param_list" with
  | Option.some _ => Except.ok []
  | Option.none =>
      Except.error "AttributeError: type object Params has no attribute param_list"

/-! Filesystem model for the configure operations
(hoover_script.py lines 322-434).  A filesystem maps path strings to
entries; `Option.none` means nothing exists at the path.  Directories
are not tracked: the `mkdir(exist_ok=True)` calls of the config-dir
branch create them idempotently and no claim concerns them. -/

/-- A filesystem entry: a regular file with its content, or a symbolic
link with its (possibly dangling) target path. -/
inductive FsEntry where
  | file (content : String) : FsEntry
  | symlink (target : String) : FsEntry
  deriving DecidableEq, Repr

/-- The filesystem state. -/
def FS : Type := String → Option FsEntry

/-- Replace (or create) the entry at one path. -/
def setEntry (fs : FS) (p : String) (e : FsEntry) : FS :=
  fun q => if q = p then Option.some e else fs q

/-- Symlink chasing with fuel, as `Path.resolve()` does (Python detects
link loops by depth; a dangling link resolves to its target path without
error). -/
def resolvePath (fs : FS) : Nat → String → String
  | 0, p => p
  | Nat.succ fuel, p =>
    match fs p with
    | Option.some (FsEntry.symlink t) => resolvePath fs fuel t
    | _ => p

/-- `Path.resolve()`. -/
def resolve (fs : FS) (p : String) : String := resolvePath fs 64 p

/-- `Path.exists()`: true iff the path, after following symlinks, is an
existing file. -/
def pathExists (fs : FS) (p : String) : Bool :=
  match fs (resolve fs p) with
  | Option.some (FsEntry.file _) => true
  | _ => false

/-- `Path.is_symlink()`: true iff the path itself is a symbolic link
(no following). -/
def is_symlink (fs : FS) (p : String) : Bool :=
  match fs p with
  | Option.some (FsEntry.symlink _) => true
  | _ => false

/-- `Path.samefile(other)`: compares the resolved files; raises
`FileNotFoundError` when either side does not exist. -/
def samefile (fs : FS) (p q : String) : Except String Bool :=
  match fs (resolve fs p), fs (resolve fs q) with
  | Option.some (FsEntry.file _), Option.some (FsEntry.file _) =>
      Except.ok (decide (resolve fs p = resolve fs q))
  | _, _ => Except.error "FileNotFoundError"

/-- `Path.symlink_to(target)` = `os.symlink`: raises `FileExistsError`
when anything (file, correct link or wrong link) already sits at the
link path; it never removes an existing entry. -/
def symlink_to (fs : FS) (link target : String) : Except String FS :=
  match fs link with
  | Option.some _ => Except.error "FileExistsError"
  | Option.none => Except.ok (setEntry fs link (FsEntry.symlink target))

/-- The config-dir linking block shared by `configure_search`
(lines 328-335) and `configure_snoop` (lines 379-386): if `local_py` is
not a symlink resolving to the same file as `real_local_py`, call
`symlink_to`; afterwards the write target becomes `real_local_py`.
Short-circuit order follows the source: `is_symlink` is checked first,
and `samefile` (which can raise) runs only on an existing symlink. -/
def ensure_linked (fs : FS) (real_local_py local_py : String) :
    Except String (String × FS) :=
  if !(is_symlink fs local_py) then
    (symlink_to fs local_py real_local_py).map (fun fs1 => (real_local_py, fs1))
  else
    match samefile fs (resolve fs local_py) real_local_py with
    | Except.error e => Except.error e
    | Except.ok true => Except.ok (real_local_py, fs)
    | Except.ok false =>
        (symlink_to fs local_py real_local_py).map (fun fs1 => (real_local_py, fs1))

/-- The `if Params.config_dir.get() is not None` guard around the
linking block: without an external config root, the write target stays
`local_py`; with one, the canonical path is
`config_dir / service / local.py`. -/
def link_step (fs : FS) (config_dir : Option String)
    (local_py service : String) : Except String (String × FS) :=
  match config_dir with
  | Option.none => Except.ok (local_py, fs)
  | Option.some cfg =>
      ensure_linked fs (cfg ++ "/" ++ service ++ "/local.py") local_py

/-- Outcome reported by a configure run that did not raise. -/
inductive WriteResult where
  | Skipped : WriteResult
  | Written : WriteResult
  deriving DecidableEq, Repr

/-- `path.open('w')`: resolves symlinks and truncates (or creates) the
resolved file immediately, before anything is written to the handle. -/
def openTruncate (fs : FS) (p : String) : String × FS :=
  (resolve fs p, setEntry fs (resolve fs p) (FsEntry.file ""))

/-- The shared shape of `configure_search` (lines 322-371) and
`configure_snoop` (lines 373-430), with the two varying pieces -
`local_py` and the service name - as arguments.  `rendered` stands for
`template.format(**values)`, which the source evaluates INSIDE the
`with local_py.open('w')` block, i.e. after the file has already been
truncated; `Except.error` models a render or write failure there.  The
skip test `if not exist_ok and local_py.exists()` runs first, on the
original `local_py`. -/
def configure_settings (fs : FS) (exist_ok : Bool)
    (config_dir : Option String) (local_py service : String)
    (rendered : Except String String) : Except String WriteResult × FS :=
  if !exist_ok && pathExists fs local_py then
    (Except.ok WriteResult.Skipped, fs)
  else
    match link_step fs config_dir local_py service with
    | Except.error e => (Except.error e, fs)
    | Except.ok (target, fs1) =>
        match rendered with
        | Except.ok content =>
            (Except.ok WriteResult.Written,
             setEntry (openTruncate fs1 target).2 (openTruncate fs1 target).1
               (FsEntry.file content))
        | Except.error e => (Except.error e, (openTruncate fs1 target).2)

/-- The settings path of hoover-search, `home/search/hoover/site/settings/local.py`. -/
def search_local_py (home : String) : String :=
  home ++ "/search/hoover/site/settings/local.py"

/-- The settings path of hoover-snoop, `home/snoop/snoop/site/settings/local.py`. -/
def snoop_local_py (home : String) : String :=
  home ++ "/snoop/snoop/site/settings/local.py"

/-- `configure_search(exist_ok)` as an instance of the shared shape. -/
def configure_search (home : String) (fs : FS) (exist_ok : Bool)
    (config_dir : Option String) (rendered : Except String String) :
    Except String WriteResult × FS :=
  configure_settings fs exist_ok config_dir (search_local_py home) "search" rendered

/-- `configure_snoop(exist_ok)` as an instance of the shared shape. -/
def configure_snoop (home : String) (fs : FS) (exist_ok : Bool)
    (config_dir : Option String) (rendered : Except String String) :
    Except String WriteResult × FS :=
  configure_settings fs exist_ok config_dir (snoop_local_py home) "snoop" rendered

/-! Secret generation, `random_secret_key` (hoover_script.py
lines 314-320). -/

/-- The fixed vocabulary of printable symbols (lines 315-316):
26 lowercase + 26 uppercase + 10 digits + 23 punctuation marks = 85. -/
def vocabulary : String :=
  "abcdefghijklmnopqrstuvwxyzABCDEFGHIJKLMNOPQRSTUVWXYZ0123456789!@#$%^&*()-=+[]\x7b\x7d:.<>/?"

/-- The vocabulary as a character list (`urandom.choice` indexes it). -/
def vocabList : List Char := vocabulary.data

/-- The character count `int(math.ceil(entropy / math.log(len(vocabulary), 2)))`
of lines 317-318, computed discretely as the least `n` with
`2 ^ entropy ≤ 85 ^ n`; the search needs at most `entropy + 1` steps
because `2 ^ e ≤ 85 ^ e`.  (The source computes the same quantity with
floating-point `math.log`; `secret_key_chars_eq_ceil` below proves the
discrete search equal to the exact real-arithmetic ceiling.) -/
def charsSearch (e : Nat) : Nat → Nat → Nat
  | 0, n => n
  | Nat.succ fuel, n =>
      if 2 ^ e ≤ 85 ^ n then n else charsSearch e fuel (n + 1)

/-- Number of characters drawn for a given entropy target. -/
def secretKeyChars (e : Nat) : Nat := charsSearch e (e + 1) 0

/-- The default of the `entropy` argument (line 314). -/
def defaultEntropy : Nat := 256

/-- `random_secret_key(entropy)` (lines 314-320), as the character list
of the joined string.  `draws` is the stream of results of
`urandom.choice(vocabulary)` - one independent uniform vocabulary index
per position, supplied by `random.SystemRandom` (the non-seeded
`os.urandom` source); position `i` of the output is exactly the
character the source drew for step `i`. -/
def random_secret_key (entropy : Nat)
    (draws : Nat → Fin vocabList.length) : List Char :=
  (List.range (secretKeyChars entropy)).map (fun i => vocabList.get (draws i))

/-! Command dispatch: `HooverParser.add_subcommands` (parser.py
lines 5-15) and `main` (hoover_script.py lines 482-489).  `main`
declares one positional argument `cmd` with `choices` equal to the
`__name__`s of the eight handler functions, calls
`parse_known_args()`, and invokes `options.cmd(extra_args)`.  The
argparse fragment in use (an `ArgumentParser` with the default
`-h` and `--help` options, one positional with `choices`, and
`parse_known_args`) is modelled from its documented behaviour:
tokens are consumed left to right; an exact `-h`/`--help` in the
option region fires the help action, printing help and exiting with
status 0; the first `--` is consumed and ends option parsing, making
every later token positional; a token starting with `-` is an option
(returned untouched, in order, among `extra_args` when unrecognised)
unless it is the bare `-` or looks like a negative number (this
parser declares no digit-led options, so argparse treats `-1`,
`-2.5` as positionals); the first positional is matched against
`choices` at the moment it is consumed - an invalid choice aborts
right there with an error naming the token and listing the choices,
exit status 2, even if a help flag follows; remaining tokens, option
or positional, are handed back verbatim, in order. -/

/-- A draw stream that always picks vocabulary index 0. -/
def draws0 : Nat → Fin vocabList.length := fun _ => ⟨0, by decide⟩

/-- The hoover-search settings path under install root `home`. -/
def searchLP : String := search_local_py "home"

/-- A filesystem holding one regular file, prior content `"OLD"`, at the
hoover-search settings path. -/
def fsOld : FS := fun p =>
  if p = searchLP then Option.some (FsEntry.file "OLD") else Option.none

/-- A filesystem holding a stale regular file at the settings path. -/
def fsStale : FS := fun p =>
  if p = "tree/local.py" then Option.some (FsEntry.file "stale") else Option.none

/-- The empty filesystem. -/
def fsEmpty : FS := fun _ => Option.none

/-- An interaction oracle whose operator always replies with a blank
line.  With `interactive_mode = false` it is never consulted. -/
def ask0 : String → PyVal → String := fun _ _ => ""

/-- An empty process environment. -/
def env0 : Env := fun _ => Option.none

/-- An environment that sets only `HOOVER_ES_URL`. -/
def env4 : Env := fun k =>
  if k = "HOOVER_ES_URL" then Option.some "http://es:9200" else Option.none

/-- An environment that sets only `HOOVER_TIKA_URL`. -/
def envT : Env := fun k =>
  if k = "HOOVER_TIKA_URL" then Option.some "http://tika:9998" else Option.none

/-- A required parameter whose default is the empty string: legal under
`Param.__init__`, used to probe the "empty counts as missing" reading. -/
def emptyReq : Param :=
  { name := "demo", default := PyVal.str "", environ := "HOOVER_DEMO" }

end HooverSetup

namespace HooverSetup

/-! Helper lemmas. -/

/-- Whatever `Param.get` returns on success, the returned `Param` caches
exactly the returned value. -/
theorem param_get_value (env : Env) (im : Bool) (ask : String → PyVal → String)
    (p : Param) (v : PyVal) (p' : Param)
    (h : Param.get env im ask p = Except.ok (v, p')) : p'.value = v := by
  unfold Param.get at h
  split at h
  · rw [Except.ok.injEq, Prod.mk.injEq] at h
    obtain ⟨hv1, hp1⟩ := h
    subst hp1
    exact hv1
  · simp only [] at h
    split at h
    · exact absurd h (by simp)
    · rw [Except.ok.injEq, Prod.mk.injEq] at h
      obtain ⟨hv1, hp1⟩ := h
      subst hp1
      simpa using hv1

/-- A path that is not a symlink (or does not exist) resolves to
itself, whatever the fuel. -/
theorem resolvePath_not_symlink (fs : FS) (p : String)
    (h : ∀ t, fs p ≠ Option.some (FsEntry.symlink t)) :
    ∀ fuel, resolvePath fs fuel p = p := by
  intro fuel
  cases fuel with
  | zero => rfl
  | succ n =>
    cases hfs : fs p with
    | none => simp [resolvePath, hfs]
    | some e =>
      cases e with
      | file c => simp [resolvePath, hfs]
      | symlink t => exact absurd hfs (h t)

/-- An absent path resolves to itself. -/
theorem resolve_of_none (fs : FS) (p : String) (h : fs p = Option.none) :
    resolve fs p = p :=
  resolvePath_not_symlink fs p (fun t => by simp [h]) 64

/-- A regular file resolves to itself. -/
theorem resolve_of_file (fs : FS) (p c : String)
    (h : fs p = Option.some (FsEntry.file c)) : resolve fs p = p :=
  resolvePath_not_symlink fs p (fun t => by simp [h]) 64

/-- An absent path does not `exists()`. -/
theorem pathExists_of_none (fs : FS) (p : String) (h : fs p = Option.none) :
    pathExists fs p = false := by
  simp [pathExists, resolve_of_none fs p h, h]

/-! Claim theorems. -/

/-- C7 (confirmed): with overwrite disabled (`exist_ok=False`) and a
file already present at the settings path, configure performs no
filesystem mutation at all - the resulting state is the input state, so
every file's content (and any metadata the state carries) is unchanged -
and reports the skip. -/
theorem configure_skip_preserves (fs : FS) (config_dir : Option String)
    (local_py service : String) (rendered : Except String String)
    (h : pathExists fs local_py = true) :
    configure_settings fs false config_dir local_py service rendered =
      (Except.ok WriteResult.Skipped, fs) := by
  unfold configure_settings
  simp [h]

/-- Witness for C7: a pre-existing hoover-search settings file is left
alone by a bootstrap-mode configure. -/
theorem configure_skip_preserves_witness :
    configure_settings fsOld false Option.none searchLP "search"
        (Except.ok "NEW") = (Except.ok WriteResult.Skipped, fsOld) :=
  configure_skip_preserves fsOld Option.none searchLP "search"
    (Except.ok "NEW") (by decide)

/-- C2 (counterexample): the claim that a failed render leaves the prior
content (or absence) at the final path is false.  With prior content
`"OLD"` at the settings path and a failing render, configure leaves a
TRUNCATED EMPTY file at the path: `open('w')` truncates before
`template.format` runs. -/
theorem configure_truncates_on_failure :
    (configure_settings fsOld true Option.none searchLP "search"
        (Except.error "boom")).1 = Except.error "boom" ∧
    (configure_settings fsOld true Option.none searchLP "search"
        (Except.error "boom")).2 searchLP = Option.some (FsEntry.file "") ∧
    fsOld searchLP = Option.some (FsEntry.file "OLD") := by
  refine ⟨by rfl, by rfl, by rfl⟩

/-- C2 (amended): the write is not all-or-nothing.  Once past the skip
test and the linking step, configure truncates the file at the write
target first; a successful render leaves the complete rendered content
there, but a failed render leaves the truncated (empty) file - the prior
content at the final path is destroyed either way. -/
theorem configure_write_all_cases (fs : FS) (exist_ok : Bool)
    (config_dir : Option String) (local_py service : String)
    (hskip : (!exist_ok && pathExists fs local_py) = false)
    (target : String) (fs1 : FS)
    (hlink : link_step fs config_dir local_py service =
      Except.ok (target, fs1)) :
    (∀ content,
      configure_settings fs exist_ok config_dir local_py service
          (Except.ok content) =
        (Except.ok WriteResult.Written,
         setEntry (openTruncate fs1 target).2 (openTruncate fs1 target).1
           (FsEntry.file content))) ∧
    (∀ e,
      configure_settings fs exist_ok config_dir local_py service
          (Except.error e) =
        (Except.error e, (openTruncate fs1 target).2)) ∧
    (openTruncate fs1 target).2 (openTruncate fs1 target).1 =
      Option.some (FsEntry.file "") := by
  refine ⟨fun content => ?_, fun e => ?_, ?_⟩
  · unfold configure_settings
    rw [hskip, hlink]
    rfl
  · unfold configure_settings
    rw [hskip, hlink]
    rfl
  · simp [openTruncate, setEntry]

/-- Witness for C2's amended theorem: on an empty filesystem a failing
render leaves the truncated file. -/
theorem configure_write_all_cases_witness :
    configure_settings fsEmpty true Option.none "p" "search"
        (Except.error "boom") =
      (Except.error "boom", (openTruncate fsEmpty "p").2) :=
  (configure_write_all_cases fsEmpty true Option.none "p" "search"
    (by decide) "p" fsEmpty (by rfl)).2.1 "boom"

/-- C3 (counterexample): the claim that the linking step removes a stale
regular file and replaces it with a symlink is false.  With a stale
regular file at the settings path, `symlink_to` raises
`FileExistsError`; nothing is removed or replaced. -/
theorem ensure_linked_stale_fails :
    ensure_linked fsStale "cfg/search/local.py" "tree/local.py" =
      Except.error "FileExistsError" ∧
    fsStale "tree/local.py" = Option.some (FsEntry.file "stale") := by
  refine ⟨by rfl, by rfl⟩

/-- C3 (amended): when NOTHING sits at the settings path, the linking
step creates a symlink to the canonical path and the subsequent write
goes to the canonical path; but when a stale regular file - or a symlink
that does not resolve to the canonical file - already sits there, the
linking step fails with `FileExistsError` instead of removing and
replacing it. -/
theorem ensure_linked_amended (fs : FS) (real_local_py local_py : String) :
    (fs local_py = Option.none →
      ensure_linked fs real_local_py local_py =
        Except.ok (real_local_py,
          setEntry fs local_py (FsEntry.symlink real_local_py))) ∧
    (∀ c, fs local_py = Option.some (FsEntry.file c) →
      ensure_linked fs real_local_py local_py =
        Except.error "FileExistsError") ∧
    (∀ t, fs local_py = Option.some (FsEntry.symlink t) →
      samefile fs (resolve fs local_py) real_local_py = Except.ok false →
      ensure_linked fs real_local_py local_py =
        Except.error "FileExistsError") ∧
    (∀ cfg service content exist_ok,
      real_local_py = cfg ++ "/" ++ service ++ "/local.py" →
      fs local_py = Option.none → fs real_local_py = Option.none →
      local_py ≠ real_local_py →
      configure_settings fs exist_ok (Option.some cfg) local_py service
          (Except.ok content) =
        (Except.ok WriteResult.Written,
         setEntry
           (setEntry (setEntry fs local_py (FsEntry.symlink real_local_py))
             real_local_py (FsEntry.file ""))
           real_local_py (FsEntry.file content))) := by
  refine ⟨fun h => ?_, fun c h => ?_, fun t h hsf => ?_, ?_⟩
  · simp [ensure_linked, is_symlink, symlink_to, h, Except.map]
  · simp [ensure_linked, is_symlink, symlink_to, h, Except.map]
  · simp [ensure_linked, is_symlink, symlink_to, h, hsf, Except.map]
  · intro cfg service content exist_ok hreal h1 h2 hne
    have hskip : (!exist_ok && pathExists fs local_py) = false := by
      rw [pathExists_of_none fs local_py h1]
      simp
    have hfs1 : setEntry fs local_py (FsEntry.symlink real_local_py)
        real_local_py = Option.none := by
      simp [setEntry, if_neg (Ne.symm hne), h2]
    have hlink : link_step fs (Option.some cfg) local_py service =
        Except.ok (real_local_py,
          setEntry fs local_py (FsEntry.symlink real_local_py)) := by
      simp only [link_step, ← hreal]
      simp [ensure_linked, is_symlink, symlink_to, h1, Except.map]
    have hres : resolve (setEntry fs local_py (FsEntry.symlink real_local_py))
        real_local_py = real_local_py :=
      resolve_of_none _ _ hfs1
    unfold configure_settings
    rw [hskip, hlink]
    simp only [openTruncate, hres]
    rfl

/-- Witness for C3's amended theorem: on an empty filesystem the linking
step creates the symlink to the canonical path. -/
theorem ensure_linked_amended_witness :
    ensure_linked fsEmpty "cfg/search/local.py" "tree/local.py" =
      Except.ok ("cfg/search/local.py",
        setEntry fsEmpty "tree/local.py"
          (FsEntry.symlink "cfg/search/local.py")) :=
  (ensure_linked_amended fsEmpty "cfg/search/local.py" "tree/local.py").1
    (by rfl)

/-- The search of `charsSearch` never undershoots: if the target is
reachable within the fuel, the result satisfies `2 ^ e ≤ 85 ^ result`. -/
theorem charsSearch_upper (e : Nat) :
    ∀ fuel n, 2 ^ e ≤ 85 ^ (n + fuel) → 2 ^ e ≤ 85 ^ charsSearch e fuel n := by
  intro fuel
  induction fuel with
  | zero => intro n h; simpa [charsSearch] using h
  | succ m ih =>
    intro n h
    by_cases hc : 2 ^ e ≤ 85 ^ n
    · simp [charsSearch, hc]
    · have h2 : 2 ^ e ≤ 85 ^ (n + 1 + m) := by
        have hrw : n + 1 + m = n + (m + 1) := by omega
        rw [hrw]
        exact h
      have := ih (n + 1) h2
      simpa [charsSearch, hc] using this

/-- The search of `charsSearch` returns the least satisfying index: all
smaller exponents fall short of the target. -/
theorem charsSearch_least (e : Nat) :
    ∀ fuel n, (∀ j, j < n → 85 ^ j < 2 ^ e) →
      ∀ m, m < charsSearch e fuel n → 85 ^ m < 2 ^ e := by
  intro fuel
  induction fuel with
  | zero => intro n h m hm; exact h m (by simpa [charsSearch] using hm)
  | succ k ih =>
    intro n h m hm
    by_cases hc : 2 ^ e ≤ 85 ^ n
    · exact h m (by simpa [charsSearch, hc] using hm)
    · refine ih (n + 1) ?_ m (by simpa [charsSearch, hc] using hm)
      intro j hj
      rcases Nat.lt_succ_iff_lt_or_eq.mp hj with hj' | hj'
      · exact h j hj'
      · subst hj'
        exact Nat.lt_of_not_le hc

/-- `85 ^ secretKeyChars e` reaches the entropy target `2 ^ e`. -/
theorem secretKeyChars_upper (e : Nat) : 2 ^ e ≤ 85 ^ secretKeyChars e := by
  refine charsSearch_upper e (e + 1) 0 ?_
  have h1 : 2 ^ e ≤ 85 ^ e := Nat.pow_le_pow_left (by norm_num) e
  have h2 : (85 : Nat) ^ e ≤ 85 ^ (e + 1) :=
    Nat.pow_le_pow_right (by norm_num) (Nat.le_succ e)
  simpa using le_trans h1 h2

/-- One character fewer would fall short of the entropy target. -/
theorem secretKeyChars_least (e m : Nat) (hm : m < secretKeyChars e) :
    85 ^ m < 2 ^ e :=
  charsSearch_least e (e + 1) 0 (fun j hj => absurd hj (Nat.not_lt_zero j)) m hm

/-- The discrete character count agrees with the exact mathematical
formula `ceil(entropy / log2 85)` of the specification. -/
theorem secret_key_chars_eq_ceil (e : Nat) (he : 1 ≤ e) :
    Nat.ceil ((e : ℝ) / Real.logb 2 85) = secretKeyChars e := by
  have hub : 2 ^ e ≤ 85 ^ secretKeyChars e := secretKeyChars_upper e
  have hn0 : secretKeyChars e ≠ 0 := by
    intro h0
    rw [h0, pow_zero] at hub
    have h2 : 2 ^ 1 ≤ 2 ^ e := Nat.pow_le_pow_right (by norm_num) he
    omega
  have hlb : 85 ^ (secretKeyChars e - 1) < 2 ^ e :=
    secretKeyChars_least e _ (by omega)
  have hL : (0 : ℝ) < Real.logb 2 85 := Real.logb_pos (by norm_num) (by norm_num)
  rw [Nat.ceil_eq_iff hn0]
  constructor
  · rw [lt_div_iff₀ hL]
    have hcast : ((85 : ℝ)) ^ (secretKeyChars e - 1) < (2 : ℝ) ^ e := by
      exact_mod_cast hlb
    have hlog := (Real.logb_lt_logb_iff (b := 2) (by norm_num)
      (by positivity) (by positivity)).mpr hcast
    rw [Real.logb_pow, Real.logb_pow, Real.logb_self_eq_one (by norm_num)] at hlog
    linarith
  · rw [div_le_iff₀ hL]
    have hcast : ((2 : ℝ)) ^ e ≤ (85 : ℝ) ^ secretKeyChars e := by
      exact_mod_cast hub
    have hlog := (Real.logb_le_logb (b := 2) (by norm_num)
      (by positivity) (by positivity)).mpr hcast
    rw [Real.logb_pow, Real.logb_pow, Real.logb_self_eq_one (by norm_num)] at hlog
    linarith

/-- C6 (confirmed): for any positive entropy target the generated
secret has exactly `ceil(entropy / log2 V)` characters where `V = 85` is
the size of the fixed vocabulary; every output character belongs to the
vocabulary, and position `i` is exactly the vocabulary character the
randomness source drew at step `i` (one independent uniform draw per
position, modelled by the `draws` stream of the `SystemRandom` source).
The default entropy target is 256 bits, giving 40 characters. -/
theorem random_secret_key_spec (e : Nat) (he : 1 ≤ e)
    (draws : Nat → Fin vocabList.length) :
    (random_secret_key e draws).length =
      Nat.ceil ((e : ℝ) / Real.logb 2 85) ∧
    vocabList.length = 85 ∧
    (∀ c ∈ random_secret_key e draws, c ∈ vocabList) ∧
    (∀ i, i < secretKeyChars e →
      (random_secret_key e draws)[i]? =
        Option.some (vocabList.get (draws i))) ∧
    defaultEntropy = 256 ∧
    secretKeyChars defaultEntropy = 40 := by
  refine ⟨?_, by decide, ?_, ?_, rfl, by decide⟩
  · simp [random_secret_key, secret_key_chars_eq_ceil e he]
  · intro c hc
    simp only [random_secret_key, List.mem_map, List.mem_range] at hc
    obtain ⟨i, _, rfl⟩ := hc
    exact List.get_mem vocabList _ _
  · intro i hi
    simp [random_secret_key, List.getElem?_map, List.getElem?_range hi]

/-- Witness for C6: at the default 256-bit target the secret is 40
characters long, and character 0 is the drawn vocabulary character. -/
theorem random_secret_key_spec_witness :
    (random_secret_key 256 draws0).length =
      Nat.ceil ((256 : ℝ) / Real.logb 2 85) ∧
    (random_secret_key 256 draws0)[0]? =
      Option.some (vocabList.get (draws0 0)) := by
  have h := random_secret_key_spec 256 (by norm_num) draws0
  exact ⟨h.1, h.2.2.2.1 0 (by decide)⟩

/-- C9 (code bug): `list_params` can never produce its listing.  Its
loop header reads `Params.param_list`, but the class `Params` has no
such attribute (the list of that name is a module-level global), so the
command dies with `AttributeError` on every invocation; and even the
loop body is broken, printing `param.optional` when `Param` instances
carry a `required` attribute and no `optional` one. -/
theorem list_params_crashes :
    (∀ which7z whichMsg whichPst whichGpg args,
      list_params which7z whichMsg whichPst whichGpg args =
        Except.error
          "AttributeError: type object Params has no attribute param_list") ∧
    (∀ p : Param, Param.lookupAttr p "optional" = Option.none) := by
  constructor
  · intro which7z whichMsg whichPst whichGpg args
    rfl
  · intro p
    rfl

/-- C4 (confirmed): on a not-yet-resolved parameter whose environment
key is set to a non-empty value, `Param.get` returns exactly that
environment value, whatever the parameter's default and required flag,
whatever the interactive-mode flag, and whatever the operator would have
typed. -/
theorem param_env_precedence (env : Env) (im : Bool)
    (ask : String → PyVal → String) (p : Param) (s : String)
    (hfresh : p.value = PyVal.none) (henv : env p.environ = Option.some s)
    (hs : s ≠ "") :
    Param.get env im ask p =
      Except.ok (PyVal.str s, { p with value := PyVal.str s }) := by
  unfold Param.get Param.resolveFresh
  rw [hfresh, henv]
  simp [hs]

/-- Witness for C4: with `HOOVER_ES_URL=http://es:9200` in the
environment, the `es_url` parameter resolves to `http://es:9200`, not to
its default `http://localhost:9200`. -/
theorem param_env_precedence_witness :
    Param.get env4 interactive_mode ask0 Params.es_url =
      Except.ok (PyVal.str "http://es:9200",
        { Params.es_url with value := PyVal.str "http://es:9200" }) :=
  param_env_precedence env4 interactive_mode ask0 Params.es_url
    "http://es:9200" (by rfl) (by rfl) (by decide)

/-- C1 (counterexample): the claim "repeated resolution returns the
identical value even if the environment changes, including optional
parameters whose resolution yields the absent value" is false.  The
optional `tika_url` parameter first resolves to the absent value (its
state after the call is unchanged, so the cache still holds `None`); a
second call after `HOOVER_TIKA_URL` appears in the environment re-reads
the environment and returns the new value instead of the first one. -/
theorem param_absent_reresolved :
    Param.get env0 interactive_mode ask0 Params.tika_url =
      Except.ok (PyVal.none, Params.tika_url) ∧
    Param.get envT interactive_mode ask0 Params.tika_url =
      Except.ok (PyVal.str "http://tika:9998",
        { Params.tika_url with value := PyVal.str "http://tika:9998" }) ∧
    PyVal.none ≠ PyVal.str "http://tika:9998" := by
  refine ⟨by rfl, by rfl, by decide⟩

/-- C1 (amended): once `Param.get` has returned a NON-absent value, every
later call returns the identical cached value and cached state, whatever
the environment, interactive-mode flag or operator input of the second
call.  (A parameter whose resolution yielded the absent value is exempt:
its cache field still holds `None`, so it is re-resolved - see the
counterexample.) -/
theorem param_get_cached (env : Env) (im : Bool)
    (ask : String → PyVal → String) (p : Param) (v : PyVal) (p' : Param)
    (h : Param.get env im ask p = Except.ok (v, p')) (hv : v ≠ PyVal.none)
    (env2 : Env) (im2 : Bool) (ask2 : String → PyVal → String) :
    Param.get env2 im2 ask2 p' = Except.ok (v, p') := by
  have hval : p'.value = v := param_get_value env im ask p v p' h
  unfold Param.get
  rw [hval]
  simp [hv]

/-- Witness for C1's amended theorem: `es_url` resolves to its default,
after which a second call under a changed environment still returns the
cached default. -/
theorem param_get_cached_witness :
    Param.get env4 interactive_mode ask0
        { Params.es_url with value := PyVal.str "http://localhost:9200" } =
      Except.ok (PyVal.str "http://localhost:9200",
        { Params.es_url with value := PyVal.str "http://localhost:9200" }) :=
  param_get_cached env0 interactive_mode ask0 Params.es_url
    (PyVal.str "http://localhost:9200")
    { Params.es_url with value := PyVal.str "http://localhost:9200" }
    (by rfl) (by decide) env4 interactive_mode ask0

/-- C5 (counterexample): the claim treats an EMPTY resolved value on a
required parameter as fatal, but `Param.get` only raises when the stored
value `is None`.  A required parameter whose default is the empty string
resolves to `""` successfully instead of failing. -/
theorem param_empty_not_missing :
    Param.get env0 interactive_mode ask0 emptyReq =
      Except.ok (PyVal.str "", { emptyReq with value := PyVal.str "" }) ∧
    emptyReq.required = true := by
  refine ⟨by rfl, by rfl⟩

/-- C5 (amended): a required parameter with no environment value, an
ABSENT (`None`) default and interactive mode disabled fails with the
missing-parameter error, which names both the parameter and the
environment key that could supply it; an empty-string value does not
count as absent. -/
theorem param_required_missing (env : Env) (ask : String → PyVal → String)
    (p : Param) (hreq : p.required = true) (hfresh : p.value = PyVal.none)
    (henv : env p.environ = Option.none) (hdef : p.default = PyVal.none) :
    Param.get env interactive_mode ask p =
      Except.error ⟨p.name, p.environ⟩ ∧
    (MissingParameter.mk p.name p.environ).message =
      "The " ++ p.name ++ " param was not set! Use the " ++ p.environ ++
        " environment variable to set it." := by
  constructor
  · unfold Param.get Param.resolveFresh interactive_mode
    rw [hfresh, henv, hdef]
    simp [hreq]
  · rfl

/-- Witness for C5's amended theorem: a required parameter shaped like
`tika_url` but with `required=True` fails on an empty environment. -/
theorem param_required_missing_witness :
    Param.get env0 interactive_mode ask0
        { name := "x_url", default := PyVal.none, environ := "HOOVER_X_URL" } =
      Except.error ⟨"x_url", "HOOVER_X_URL"⟩ :=
  (param_required_missing env0 ask0
    { name := "x_url", default := PyVal.none, environ := "HOOVER_X_URL" }
    (by rfl) (by rfl) (by rfl) (by rfl)).1

/-- C10 (confirmed): the module-level interactive flag is `False`, and
with it resolution never consults the operator: `Param.get` gives the
same answer under any two interaction oracles, so the resolved value is
a function of the process environment and the declared parameter alone,
and identical environments yield identical resolutions. -/
theorem param_resolution_deterministic :
    interactive_mode = false ∧
    ∀ (env : Env) (ask ask2 : String → PyVal → String) (p : Param),
      Param.get env interactive_mode ask p =
        Param.get env interactive_mode ask2 p := by
  refine ⟨rfl, fun env ask ask2 p => ?_⟩
  cases h : env p.environ <;>
    simp [Param.get, Param.resolveFresh, interactive_mode, h]

end HooverSetup
